import Mathlib

/-!
Verification development for the creevey browser screenshot engine.

The definitions below are a shallow embedding of the TypeScript source of
the capture engine and session manager (selenium module): geometry records
and the arithmetic of `takeCompositeScreenshot`, the control flow of
`takeScreenshot`, `selectStory`, `resolveStorybookUrl` / `getUrlChecker`,
`getBrowser`, `resolveCaptureElement` / `switchStory`, and
`insertIgnoreStyles` / `removeIgnoreStyles`.

JavaScript numbers are modelled as rationals (the values arising in the
code are pixel geometry, exact in binary floating point for all inputs of
interest); `Math.floor`, `Math.ceil`, `Math.round` are `Int.floor`,
`Int.ceil` and `round` (Mathlib's `round` is `⌊x + 1/2⌋`, which agrees
with JavaScript `Math.round`); the JavaScript remainder `%` is truncated
remainder, modelled by `jsMod` below.  Asynchronous browser interactions
are modelled by oracle records whose fields give the outcome of each
in-page call.
-/

namespace Creevey

/-- Geometry record `{top, left, width, height}` in page pixels, mirroring
the `ElementRect` type of the selenium module. -/
structure ElementRect where
  top : ℚ
  left : ℚ
  width : ℚ
  height : ℚ
deriving DecidableEq

/-- Truncation toward zero of a rational, the rounding used by the
JavaScript `%` operator. -/
def ratTrunc (q : ℚ) : ℤ :=
  if q < 0 then -⌊-q⌋ else ⌊q⌋

/-- JavaScript remainder `a % b`: truncated remainder. -/
def jsMod (a b : ℚ) : ℚ :=
  a - b * ratTrunc (a / b)

/-- Normalized element rectangle as computed at the start of
`takeCompositeScreenshot`: the element rect shifted by the current window
scroll offset. -/
structure NormalizedRect where
  left : ℚ
  right : ℚ
  top : ℚ
  bottom : ℚ

/-- Input data of `takeCompositeScreenshot`: the window rect, the element
rect, the measured scrollbar width and whether this browser takes
viewport screenshots without scrollbars (`!hasScrollBar`). -/
structure CompositeInput where
  windowRect : ElementRect
  elementRect : ElementRect
  scrollBarWidth : ℚ
  screenshotWithoutScrollBar : Bool

namespace CompositeInput

/-- The `normalizedElementRect` local of `takeCompositeScreenshot`. -/
def normRect (c : CompositeInput) : NormalizedRect :=
  { left := c.elementRect.left - c.windowRect.left
    right := c.elementRect.left + c.elementRect.width - c.windowRect.left
    top := c.elementRect.top - c.windowRect.top
    bottom := c.elementRect.top + c.elementRect.height - c.windowRect.top }

/-- The `isFitHorizontally` local. -/
def isFitHorizontally (c : CompositeInput) : Bool :=
  decide (c.windowRect.width ≥ c.elementRect.width + c.normRect.left)

/-- The `isFitVertically` local. -/
def isFitVertically (c : CompositeInput) : Bool :=
  decide (c.windowRect.height ≥ c.elementRect.height + c.normRect.top)

/-- The effective tile width `viewportWidth`. -/
def viewportWidth (c : CompositeInput) : ℚ :=
  c.windowRect.width - (if c.isFitVertically then 0 else c.scrollBarWidth)

/-- The effective tile height `viewportHeight`. -/
def viewportHeight (c : CompositeInput) : ℚ :=
  c.windowRect.height - (if c.isFitHorizontally then 0 else c.scrollBarWidth)

/-- The tile-grid column count `cols = Math.ceil(elementRect.width / viewportWidth)`. -/
def cols (c : CompositeInput) : ℤ :=
  ⌈c.elementRect.width / c.viewportWidth⌉

/-- The tile-grid row count `rows = Math.ceil(elementRect.height / viewportHeight)`. -/
def rows (c : CompositeInput) : ℤ :=
  ⌈c.elementRect.height / c.viewportHeight⌉

/-- The trailing-column offset `xOffset`. -/
def xOffset (c : CompositeInput) : ℤ :=
  round (if c.isFitHorizontally then c.normRect.left
         else max 0 (c.cols * c.viewportWidth - c.elementRect.width))

/-- The trailing-row offset `yOffset`. -/
def yOffset (c : CompositeInput) : ℤ :=
  round (if c.isFitVertically then c.normRect.top
         else max 0 (c.rows * c.viewportHeight - c.elementRect.height))

/-- The scroll x-target `dx` computed for the tile in column `col`. -/
def tileScrollX (c : CompositeInput) (col : ℤ) : ℚ :=
  min (c.viewportWidth * col + c.normRect.left) (max 0 (c.normRect.right - c.viewportWidth))

/-- The scroll y-target `dy` computed for the tile in row `row`. -/
def tileScrollY (c : CompositeInput) (row : ℤ) : ℚ :=
  min (c.viewportHeight * row + c.normRect.top) (max 0 (c.normRect.bottom - c.viewportHeight))

/-- Width of the output raster: `new PNG({ width: Math.round(elementRect.width), ... })`. -/
def compositeWidth (c : CompositeInput) : ℤ :=
  round c.elementRect.width

/-- Height of the output raster: `... height: Math.round(elementRect.height)`. -/
def compositeHeight (c : CompositeInput) : ℤ :=
  round c.elementRect.height

/-- Tile column picked for destination pixel column `x`:
`Math.floor(x / viewportWidth)`. -/
def colOf (c : CompositeInput) (x : ℕ) : ℤ :=
  ⌊(x : ℚ) / c.viewportWidth⌋

/-- Tile row picked for destination pixel row `y`:
`Math.floor(y / viewportHeight)`. -/
def rowOf (c : CompositeInput) (y : ℕ) : ℤ :=
  ⌊(y : ℚ) / c.viewportHeight⌋

/-- The `isLastCol` flag for destination column `x`. -/
def isLastCol (c : CompositeInput) (x : ℕ) : Bool :=
  c.cols - c.colOf x == 1

/-- The `isLastRow` flag for destination row `y`. -/
def isLastRow (c : CompositeInput) (y : ℕ) : Bool :=
  c.rows - c.rowOf y == 1

/-- The `scrollOffset` correction used while stitching. -/
def scrollOffset (c : CompositeInput) : ℚ :=
  if c.isFitVertically || c.screenshotWithoutScrollBar then 0 else c.scrollBarWidth

/-- The source byte index `j` into the tile image for destination pixel
`(x, y)`, exactly as computed in the reconstruction loop. -/
def srcIndex (c : CompositeInput) (x y : ℕ) : ℚ :=
  (jsMod y c.viewportHeight * (c.viewportWidth + c.scrollOffset) + jsMod x c.viewportWidth) * 4 +
    (if c.isLastRow y then (c.yOffset : ℚ) * (c.viewportWidth + c.scrollOffset) * 4 else 0) +
    (if c.isLastCol x then (c.xOffset : ℚ) * 4 else 0)

/-- In-tile source pixel column encoded by `srcIndex`. -/
def srcX (c : CompositeInput) (x : ℕ) : ℚ :=
  jsMod x c.viewportWidth + (if c.isLastCol x then (c.xOffset : ℚ) else 0)

/-- In-tile source pixel row encoded by `srcIndex`. -/
def srcY (c : CompositeInput) (y : ℕ) : ℚ :=
  jsMod y c.viewportHeight + (if c.isLastRow y then (c.yOffset : ℚ) else 0)

/-- Index of the tile image used for destination pixel `(x, y)`:
`images[row * cols + col]`. -/
def tileIndex (c : CompositeInput) (x y : ℕ) : ℤ :=
  c.rowOf y * c.cols + c.colOf x

end CompositeInput

/-- The concrete composite-capture scenario of the specification: viewport
800×600, scrollbar width 15, element 1600×600 at the viewport origin, in a
browser whose screenshots do not include scrollbars. -/
def scenarioComposite : CompositeInput :=
  { windowRect := { top := 0, left := 0, width := 800, height := 600 }
    elementRect := { top := 0, left := 0, width := 1600, height := 600 }
    scrollBarWidth := 15
    screenshotWithoutScrollBar := true }

/-- Rounding a nonnegative rational yields a nonnegative integer. -/
theorem roundNonneg {q : ℚ} (h : 0 ≤ q) : 0 ≤ round q := by
  rw [round_eq]
  exact Int.floor_nonneg.mpr (by linarith)

/-- C1 (counterexample). In the scenario with viewport 800×600, scrollbar
width 15 and element 1600×600 at the viewport origin, the claimed tile
grid `cols = 2 ∧ rows = 1` does not hold on the code: the element does not
fit horizontally, so the horizontal scrollbar reduces the effective tile
height to 585 and `rows = ⌈600 / 585⌉ = 2`. -/
theorem takeCompositeScreenshot_scenario_claim_false :
    ¬(scenarioComposite.cols = 2 ∧ scenarioComposite.rows = 1 ∧
      scenarioComposite.viewportWidth = 800 ∧
      scenarioComposite.compositeWidth = 1600 ∧ scenarioComposite.compositeHeight = 600) := by
  intro h
  have hr : scenarioComposite.rows = 2 := by
    norm_num [CompositeInput.rows, CompositeInput.viewportHeight, CompositeInput.isFitHorizontally,
      CompositeInput.normRect, scenarioComposite, Int.ceil_eq_iff]
  rw [h.2.1] at hr
  exact absurd hr (by decide)

/-- C1 (amended). In the scenario with viewport 800×600, scrollbar width
15 and element 1600×600 at the viewport origin, in a browser whose
screenshots do not include scrollbars, `takeCompositeScreenshot` computes
an effective tile width of 800 and tile height of 585 (the horizontal
scrollbar still consumes 15 pixels of viewport height), hence a tile grid
of `cols = 2` and `rows = 2`, and the output composite raster is exactly
1600×600 pixels. -/
theorem takeCompositeScreenshot_scenario_grid :
    scenarioComposite.cols = 2 ∧ scenarioComposite.rows = 2 ∧
      scenarioComposite.viewportWidth = 800 ∧ scenarioComposite.viewportHeight = 585 ∧
      scenarioComposite.compositeWidth = 1600 ∧ scenarioComposite.compositeHeight = 600 := by
  refine ⟨?_, ?_, ?_, ?_, ?_, ?_⟩ <;>
    norm_num [CompositeInput.cols, CompositeInput.rows, CompositeInput.viewportWidth,
      CompositeInput.viewportHeight, CompositeInput.isFitVertically, CompositeInput.isFitHorizontally,
      CompositeInput.normRect, CompositeInput.compositeWidth, CompositeInput.compositeHeight,
      scenarioComposite, Int.ceil_eq_iff, round_eq, Int.floor_eq_iff]

/-- C3. Numeric semantics of `takeCompositeScreenshot`: the effective
tile dimensions equal the full viewport minus the scrollbar width on the
axis reduced by the perpendicular scrollbar (width shrinks when vertical
scrolling is still required, height when horizontal scrolling is); the
tile grid uses ceiling division; the trailing-tile offsets and all scroll
targets are nonnegative thanks to the `max(0, …)` clamps; and the output
raster dimensions are the element dimensions rounded to the nearest
integer, while all other rect arithmetic stays in unrounded rational
page-pixel units. -/
theorem takeCompositeScreenshot_numeric_semantics (c : CompositeInput)
    (hL : 0 ≤ c.normRect.left) (hT : 0 ≤ c.normRect.top)
    (hvw : 0 ≤ c.viewportWidth) (hvh : 0 ≤ c.viewportHeight) :
    (c.viewportWidth =
      if c.isFitVertically then c.windowRect.width else c.windowRect.width - c.scrollBarWidth) ∧
    (c.viewportHeight =
      if c.isFitHorizontally then c.windowRect.height else c.windowRect.height - c.scrollBarWidth) ∧
    c.cols = ⌈c.elementRect.width / c.viewportWidth⌉ ∧
    c.rows = ⌈c.elementRect.height / c.viewportHeight⌉ ∧
    0 ≤ c.xOffset ∧ 0 ≤ c.yOffset ∧
    (∀ col : ℤ, 0 ≤ col → 0 ≤ c.tileScrollX col) ∧
    (∀ row : ℤ, 0 ≤ row → 0 ≤ c.tileScrollY row) ∧
    c.compositeWidth = round c.elementRect.width ∧
    c.compositeHeight = round c.elementRect.height := by
  refine ⟨?_, ?_, rfl, rfl, ?_, ?_, ?_, ?_, rfl, rfl⟩
  · cases h : c.isFitVertically <;> simp [CompositeInput.viewportWidth, h]
  · cases h : c.isFitHorizontally <;> simp [CompositeInput.viewportHeight, h]
  · unfold CompositeInput.xOffset
    cases h : c.isFitHorizontally
    · simpa using roundNonneg (le_max_left 0 (c.cols * c.viewportWidth - c.elementRect.width))
    · simpa using roundNonneg hL
  · unfold CompositeInput.yOffset
    cases h : c.isFitVertically
    · simpa using roundNonneg (le_max_left 0 (c.rows * c.viewportHeight - c.elementRect.height))
    · simpa using roundNonneg hT
  · intro col hcol
    refine le_min ?_ (le_max_left 0 _)
    have : 0 ≤ c.viewportWidth * col := mul_nonneg hvw (by exact_mod_cast hcol)
    linarith
  · intro row hrow
    refine le_min ?_ (le_max_left 0 _)
    have : 0 ≤ c.viewportHeight * row := mul_nonneg hvh (by exact_mod_cast hrow)
    linarith

/-- C3 (witness): the hypotheses of
`takeCompositeScreenshot_numeric_semantics` hold at the concrete 800×600
scenario input, and so does its conclusion. -/
theorem takeCompositeScreenshot_numeric_semantics_witness :
    (0 ≤ scenarioComposite.normRect.left ∧ 0 ≤ scenarioComposite.normRect.top ∧
      0 ≤ scenarioComposite.viewportWidth ∧ 0 ≤ scenarioComposite.viewportHeight) ∧
    ((scenarioComposite.viewportWidth =
        if scenarioComposite.isFitVertically then scenarioComposite.windowRect.width
        else scenarioComposite.windowRect.width - scenarioComposite.scrollBarWidth) ∧
      (scenarioComposite.viewportHeight =
        if scenarioComposite.isFitHorizontally then scenarioComposite.windowRect.height
        else scenarioComposite.windowRect.height - scenarioComposite.scrollBarWidth) ∧
      scenarioComposite.cols = ⌈scenarioComposite.elementRect.width / scenarioComposite.viewportWidth⌉ ∧
      scenarioComposite.rows = ⌈scenarioComposite.elementRect.height / scenarioComposite.viewportHeight⌉ ∧
      0 ≤ scenarioComposite.xOffset ∧ 0 ≤ scenarioComposite.yOffset ∧
      (∀ col : ℤ, 0 ≤ col → 0 ≤ scenarioComposite.tileScrollX col) ∧
      (∀ row : ℤ, 0 ≤ row → 0 ≤ scenarioComposite.tileScrollY row) ∧
      scenarioComposite.compositeWidth = round scenarioComposite.elementRect.width ∧
      scenarioComposite.compositeHeight = round scenarioComposite.elementRect.height) := by
  have h1 : 0 ≤ scenarioComposite.normRect.left := by
    norm_num [CompositeInput.normRect, scenarioComposite]
  have h2 : 0 ≤ scenarioComposite.normRect.top := by
    norm_num [CompositeInput.normRect, scenarioComposite]
  have h3 : 0 ≤ scenarioComposite.viewportWidth := by
    norm_num [CompositeInput.viewportWidth, CompositeInput.isFitVertically,
      CompositeInput.normRect, scenarioComposite]
  have h4 : 0 ≤ scenarioComposite.viewportHeight := by
    norm_num [CompositeInput.viewportHeight, CompositeInput.isFitHorizontally,
      CompositeInput.normRect, scenarioComposite]
  exact ⟨⟨h1, h2, h3, h4⟩,
    takeCompositeScreenshot_numeric_semantics scenarioComposite h1 h2 h3 h4⟩

/-- Per-axis correctness of the tile/pixel bookkeeping of
`takeCompositeScreenshot`, for an element whose extent `W` on this axis is
an exact multiple `k` of the effective tile extent `vw`, with normalized
offset `L` and trailing edge `R = L + W`, under the proviso that if the
axis fits the viewport then no scroll adjustment is needed on it
(`L + W ≤ vw`).  The tile scroll target of the chosen tile plus the
in-tile source coordinate recovers exactly the destination coordinate in
page pixels. -/
theorem tileAxisIdent (vw L W R : ℚ) (k : ℕ) (fit : Bool)
    (hvw : 0 < vw) (hL : 0 ≤ L) (hk : 1 ≤ k)
    (hW : W = k * vw) (hR : R = L + W) (hfit : fit = true → L + W ≤ vw)
    (x : ℕ) (hx : (x : ℚ) < W) :
    0 ≤ ⌊(x : ℚ) / vw⌋ ∧ ⌊(x : ℚ) / vw⌋ < ⌈W / vw⌉ ∧
    min (vw * ⌊(x : ℚ) / vw⌋ + L) (max 0 (R - vw)) +
      (jsMod x vw +
        (if ⌈W / vw⌉ - ⌊(x : ℚ) / vw⌋ == 1 then
          (round (if fit then L else max 0 (⌈W / vw⌉ * vw - W)) : ℚ) else 0)) = L + x := by
  have hvw' : vw ≠ 0 := ne_of_gt hvw
  have hdiv0 : (0 : ℚ) ≤ (x : ℚ) / vw := div_nonneg (Nat.cast_nonneg x) hvw.le
  have hcol0 : 0 ≤ ⌊(x : ℚ) / vw⌋ := Int.floor_nonneg.mpr hdiv0
  have hceil : ⌈W / vw⌉ = (k : ℤ) := by
    rw [hW, mul_div_cancel_right₀ _ hvw']
    exact Int.ceil_natCast k
  have hkQ : (1 : ℚ) ≤ (k : ℚ) := by exact_mod_cast hk
  have hcollt : ⌊(x : ℚ) / vw⌋ < (k : ℤ) := by
    rw [Int.floor_lt]
    rw [div_lt_iff₀ hvw]
    push_cast
    rw [hW] at hx
    linarith
  have htrunc : ratTrunc ((x : ℚ) / vw) = ⌊(x : ℚ) / vw⌋ := by
    unfold ratTrunc
    rw [if_neg (not_lt.mpr hdiv0)]
  have hmod : jsMod x vw = (x : ℚ) - vw * ⌊(x : ℚ) / vw⌋ := by
    unfold jsMod
    rw [htrunc]
  refine ⟨hcol0, by rw [hceil]; exact hcollt, ?_⟩
  by_cases hf : fit = true
  · -- the axis fits the viewport: the proviso forces k = 1 and L = 0
    have hLW : L + W ≤ vw := hfit hf
    have hk1 : k = 1 := by
      have h1 : (k : ℚ) * vw ≤ vw := by rw [hW] at hLW; linarith
      have h2 : (k : ℚ) ≤ 1 := le_of_mul_le_mul_right (by linarith) hvw
      have h3 : k ≤ 1 := by exact_mod_cast h2
      omega
    have hWvw : W = vw := by rw [hW, hk1]; push_cast; ring
    have hL0 : L = 0 := le_antisymm (by linarith) hL
    have hcol : ⌊(x : ℚ) / vw⌋ = 0 := by
      rw [Int.floor_eq_zero_iff]
      exact ⟨hdiv0, (div_lt_one hvw).mpr (by rw [hWvw] at hx; exact hx)⟩
    rw [hmod, hcol, hceil, hk1, hf, hR, hWvw, hL0]
    norm_num
  · -- the axis does not fit: the trailing offset is zero and the grid tiles exactly
    have hfF : fit = false := by
      cases fit
      · rfl
      · exact absurd rfl hf
    have hoff : (if ⌈W / vw⌉ - ⌊(x : ℚ) / vw⌋ == 1 then
        (round (if fit then L else max 0 (⌈W / vw⌉ * vw - W)) : ℚ) else 0) = 0 := by
      rw [hfF, hceil, hW]
      norm_num
    have hmax : max 0 (R - vw) = L + ((k : ℚ) - 1) * vw := by
      rw [hR, hW, max_eq_right (by nlinarith)]
      ring
    have hcolle : (⌊(x : ℚ) / vw⌋ : ℚ) ≤ (k : ℚ) - 1 := by
      have h1 : ⌊(x : ℚ) / vw⌋ + 1 ≤ (k : ℤ) := hcollt
      have h2 : ((⌊(x : ℚ) / vw⌋ : ℤ) : ℚ) + 1 ≤ (k : ℚ) := by exact_mod_cast h1
      linarith
    have hmin : min (vw * ⌊(x : ℚ) / vw⌋ + L) (L + ((k : ℚ) - 1) * vw) =
        vw * ⌊(x : ℚ) / vw⌋ + L := by
      rw [min_eq_left]
      have := mul_le_mul_of_nonneg_left hcolle hvw.le
      linarith
    rw [hoff, hmod, hmax, hmin]
    ring

/-- C2 (amended). For an element whose width and height are exact integer
multiples of the effective tile width and height, and such that each axis
either genuinely requires tiling or needs no scroll adjustment
(normalized offset plus extent within one tile), the reconstruction loop
of `takeCompositeScreenshot` maps every destination pixel `(x, y)` of the
output raster to exactly one source pixel of exactly one captured tile:
the chosen tile indices are in range, and the scroll position of the
chosen tile plus the in-tile source coordinate equals the destination
pixel's own page coordinate — an identity map on page pixels, so no row
or column is duplicated and none is missing; moreover the byte index `j`
decomposes exactly as that source pixel in the tile raster. -/
theorem takeCompositeScreenshot_exact_multiple (c : CompositeInput) (k m : ℕ)
    (hk : 1 ≤ k) (hm : 1 ≤ m)
    (hvw : 0 < c.viewportWidth) (hvh : 0 < c.viewportHeight)
    (hL : 0 ≤ c.normRect.left) (hT : 0 ≤ c.normRect.top)
    (hW : c.elementRect.width = k * c.viewportWidth)
    (hH : c.elementRect.height = m * c.viewportHeight)
    (hfh : c.isFitHorizontally = true →
      c.normRect.left + c.elementRect.width ≤ c.viewportWidth)
    (hfv : c.isFitVertically = true →
      c.normRect.top + c.elementRect.height ≤ c.viewportHeight)
    (x y : ℕ) (hx : (x : ℤ) < c.compositeWidth) (hy : (y : ℤ) < c.compositeHeight) :
    0 ≤ c.colOf x ∧ c.colOf x < c.cols ∧ 0 ≤ c.rowOf y ∧ c.rowOf y < c.rows ∧
    c.tileScrollX (c.colOf x) + c.srcX x = c.normRect.left + x ∧
    c.tileScrollY (c.rowOf y) + c.srcY y = c.normRect.top + y ∧
    c.srcIndex x y = (c.srcY y * (c.viewportWidth + c.scrollOffset) + c.srcX x) * 4 := by
  have hxW : (x : ℚ) < c.elementRect.width := by
    have h1 : ((x : ℤ) : ℚ) + 1 ≤ ((c.compositeWidth : ℤ) : ℚ) := by
      exact_mod_cast Int.add_one_le_iff.mpr hx
    have h2 : ((c.compositeWidth : ℤ) : ℚ) ≤ c.elementRect.width + 1 / 2 :=
      round_le_add_half c.elementRect.width
    push_cast at h1
    linarith
  have hyH : (y : ℚ) < c.elementRect.height := by
    have h1 : ((y : ℤ) : ℚ) + 1 ≤ ((c.compositeHeight : ℤ) : ℚ) := by
      exact_mod_cast Int.add_one_le_iff.mpr hy
    have h2 : ((c.compositeHeight : ℤ) : ℚ) ≤ c.elementRect.height + 1 / 2 :=
      round_le_add_half c.elementRect.height
    push_cast at h1
    linarith
  have hX := tileAxisIdent c.viewportWidth c.normRect.left c.elementRect.width
    c.normRect.right k c.isFitHorizontally hvw hL hk hW
    (by simp only [CompositeInput.normRect]; ring) hfh x hxW
  have hY := tileAxisIdent c.viewportHeight c.normRect.top c.elementRect.height
    c.normRect.bottom m c.isFitVertically hvh hT hm hH
    (by simp only [CompositeInput.normRect]; ring) hfv y hyH
  refine ⟨hX.1, hX.2.1, hY.1, hY.2.1, hX.2.2, hY.2.2, ?_⟩
  unfold CompositeInput.srcIndex CompositeInput.srcX CompositeInput.srcY
  by_cases h1 : c.isLastRow y = true <;> by_cases h2 : c.isLastCol x = true <;>
    simp [h1, h2] <;> ring

/-- Composite-capture input refuting the unrestricted exact-multiple
claim: viewport 800×600, scrollbar width 15, element 785×1200 at
`left = 10`.  The element fits horizontally (795 ≤ 800) but overflows
vertically, so the effective tile width is 785 = element width (an exact
1× multiple) and the effective tile height is 600 (1200 is an exact 2×
multiple). -/
def cexComposite : CompositeInput :=
  { windowRect := { top := 0, left := 0, width := 800, height := 600 }
    elementRect := { top := 0, left := 10, width := 785, height := 1200 }
    scrollBarWidth := 15
    screenshotWithoutScrollBar := true }

/-- C2 (counterexample). At `cexComposite` the element's width and height
are exact integer multiples (1× and 2×) of the effective tile dimensions,
yet destination pixel `(0, 0)` does not map to its own source pixel: the
tile is captured after scrolling to `x = 10` (putting the element's left
edge at tile column 0) while the reconstruction reads tile column
`xOffset = 10`, i.e. page column 20 instead of 10 — the element's first
ten pixel columns appear nowhere in the composite. -/
theorem takeCompositeScreenshot_exact_multiple_claim_false :
    cexComposite.elementRect.width = (1 : ℕ) * cexComposite.viewportWidth ∧
    cexComposite.elementRect.height = (2 : ℕ) * cexComposite.viewportHeight ∧
    (0 : ℤ) < cexComposite.compositeWidth ∧ (0 : ℤ) < cexComposite.compositeHeight ∧
    cexComposite.tileScrollX (cexComposite.colOf 0) + cexComposite.srcX 0 ≠
      cexComposite.normRect.left + (0 : ℕ) := by
  have hfitH : cexComposite.isFitHorizontally = true := by
    simp only [CompositeInput.isFitHorizontally, CompositeInput.normRect]
    norm_num [cexComposite]
  have hfitV : cexComposite.isFitVertically = false := by
    simp only [CompositeInput.isFitVertically, CompositeInput.normRect]
    norm_num [cexComposite]
  have hvw : cexComposite.viewportWidth = 785 := by
    simp only [CompositeInput.viewportWidth, hfitV]
    norm_num [cexComposite]
  have hvh : cexComposite.viewportHeight = 600 := by
    simp only [CompositeInput.viewportHeight, hfitH]
    norm_num [cexComposite]
  have hcols : cexComposite.cols = 1 := by
    simp only [CompositeInput.cols, hvw]
    norm_num [cexComposite, Int.ceil_eq_iff]
  have hcol0 : cexComposite.colOf 0 = 0 := by
    simp only [CompositeInput.colOf, hvw]
    norm_num
  have hlast : cexComposite.isLastCol 0 = true := by
    simp only [CompositeInput.isLastCol, hcols, hcol0]
    norm_num
  have hxoff : cexComposite.xOffset = 10 := by
    simp only [CompositeInput.xOffset, hfitH, CompositeInput.normRect, if_pos]
    norm_num [cexComposite, round_eq, Int.floor_eq_iff]
  have hts : cexComposite.tileScrollX 0 = 10 := by
    simp only [CompositeInput.tileScrollX, hvw, CompositeInput.normRect]
    norm_num [cexComposite]
  have hsx : cexComposite.srcX 0 = 10 := by
    simp only [CompositeInput.srcX, hlast, hxoff, hvw, jsMod, ratTrunc, if_pos]
    norm_num
  refine ⟨?_, ?_, ?_, ?_, ?_⟩
  · rw [hvw]; norm_num [cexComposite]
  · rw [hvh]; norm_num [cexComposite]
  · simp only [CompositeInput.compositeWidth]
    norm_num [cexComposite, round_eq, Int.floor_eq_iff]
  · simp only [CompositeInput.compositeHeight]
    norm_num [cexComposite, round_eq, Int.floor_eq_iff]
  · rw [hcol0, hts, hsx]
    simp only [CompositeInput.normRect]
    norm_num [cexComposite]

/-- Composite-capture input witnessing the amended exact-multiple
theorem: viewport 800×600, scrollbar width 15, element 1570×1170 at the
viewport origin — exactly 2×2 tiles of 785×585. -/
def witComposite : CompositeInput :=
  { windowRect := { top := 0, left := 0, width := 800, height := 600 }
    elementRect := { top := 0, left := 0, width := 1570, height := 1170 }
    scrollBarWidth := 15
    screenshotWithoutScrollBar := false }

/-- C2 (witness): the hypotheses of
`takeCompositeScreenshot_exact_multiple` hold at `witComposite` with
`k = m = 2` and destination pixel `(0, 0)`, and so does its conclusion. -/
theorem takeCompositeScreenshot_exact_multiple_witness :
    (0 < witComposite.viewportWidth ∧ 0 < witComposite.viewportHeight ∧
      witComposite.elementRect.width = (2 : ℕ) * witComposite.viewportWidth ∧
      witComposite.elementRect.height = (2 : ℕ) * witComposite.viewportHeight ∧
      (0 : ℤ) < witComposite.compositeWidth ∧ (0 : ℤ) < witComposite.compositeHeight) ∧
    (0 ≤ witComposite.colOf 0 ∧ witComposite.colOf 0 < witComposite.cols ∧
      0 ≤ witComposite.rowOf 0 ∧ witComposite.rowOf 0 < witComposite.rows ∧
      witComposite.tileScrollX (witComposite.colOf 0) + witComposite.srcX 0 =
        witComposite.normRect.left + (0 : ℕ) ∧
      witComposite.tileScrollY (witComposite.rowOf 0) + witComposite.srcY 0 =
        witComposite.normRect.top + (0 : ℕ) ∧
      witComposite.srcIndex 0 0 =
        (witComposite.srcY 0 * (witComposite.viewportWidth + witComposite.scrollOffset) +
          witComposite.srcX 0) * 4) := by
  have hfitH : witComposite.isFitHorizontally = false := by
    simp only [CompositeInput.isFitHorizontally, CompositeInput.normRect]
    norm_num [witComposite]
  have hfitV : witComposite.isFitVertically = false := by
    simp only [CompositeInput.isFitVertically, CompositeInput.normRect]
    norm_num [witComposite]
  have hvw : witComposite.viewportWidth = 785 := by
    simp only [CompositeInput.viewportWidth, hfitV]
    norm_num [witComposite]
  have hvh : witComposite.viewportHeight = 585 := by
    simp only [CompositeInput.viewportHeight, hfitH]
    norm_num [witComposite]
  have h1 : 0 < witComposite.viewportWidth := by rw [hvw]; norm_num
  have h2 : 0 < witComposite.viewportHeight := by rw [hvh]; norm_num
  have h3 : witComposite.elementRect.width = (2 : ℕ) * witComposite.viewportWidth := by
    rw [hvw]; norm_num [witComposite]
  have h4 : witComposite.elementRect.height = (2 : ℕ) * witComposite.viewportHeight := by
    rw [hvh]; norm_num [witComposite]
  have h5 : 0 ≤ witComposite.normRect.left := by
    simp only [CompositeInput.normRect]
    norm_num [witComposite]
  have h6 : 0 ≤ witComposite.normRect.top := by
    simp only [CompositeInput.normRect]
    norm_num [witComposite]
  have h7 : (0 : ℤ) < witComposite.compositeWidth := by
    simp only [CompositeInput.compositeWidth]
    norm_num [witComposite, round_eq, Int.floor_eq_iff]
  have h8 : (0 : ℤ) < witComposite.compositeHeight := by
    simp only [CompositeInput.compositeHeight]
    norm_num [witComposite, round_eq, Int.floor_eq_iff]
  exact ⟨⟨h1, h2, h3, h4, h7, h8⟩,
    takeCompositeScreenshot_exact_multiple witComposite 2 2 (by norm_num) (by norm_num)
      h1 h2 h5 h6 h3 h4
      (fun h => absurd h (by rw [hfitH]; exact Bool.false_ne_true))
      (fun h => absurd h (by rw [hfitV]; exact Bool.false_ne_true))
      0 0 (by exact_mod_cast h7) (by exact_mod_cast h8)⟩

/-- JavaScript `Error` value: its `name`, `message` and `stack`. -/
structure JsError where
  name : String
  message : String
  stack : String
deriving DecidableEq

/-- Name of a plain JavaScript `Error`. -/
def plainErrorName : String := "Error"

/-- Value produced by `new Error(message)`. -/
def mkJsError (message : String) : JsError :=
  { name := plainErrorName, message := message, stack := "" }

/-- Shapes the `ignoreElements` argument of `takeScreenshot` can take:
a single selector string, an array of selectors, `null` or `undefined`. -/
inductive IgnoreInput where
  | one (s : String)
  | many (l : List String)
  | null
  | undef

/-- Result of `Array.prototype.concat(ignoreElements)`: a non-array value
(including `null` and `undefined`) becomes a one-element list, an array is
kept as is. -/
def ignoreConcat : IgnoreInput → List (Option String)
  | .one s => [some s]
  | .many l => l.map some
  | .null => [none]
  | .undef => [none]

/-- The `ignoreSelectors` local of `insertIgnoreStyles`:
`Array.prototype.concat(ignoreElements).filter(Boolean)` — `null`,
`undefined` and empty strings are falsy and dropped. -/
def ignoreSelectors (i : IgnoreInput) : List String :=
  (ignoreConcat i).filterMap fun o =>
    match o with
    | some s => if s = "" then none else some s
    | none => none

/-- Result of `insertIgnoreStyles`: the style-element handle (modelled by
the selector list it was created from) if one was injected, and whether
the in-page insert hook was invoked. -/
structure InsertResult where
  ignoreStyles : Option (List String)
  insertHookCalled : Bool
deriving DecidableEq

/-- The `insertIgnoreStyles` helper: with no effective selectors it
returns `null` without any in-page call, otherwise it calls the in-page
hook and returns the injected style element. -/
def insertIgnoreStyles (i : IgnoreInput) : InsertResult :=
  let selectors := ignoreSelectors i
  if selectors.isEmpty then { ignoreStyles := none, insertHookCalled := false }
  else { ignoreStyles := some selectors, insertHookCalled := true }

/-- The `removeIgnoreStyles` helper: invokes the in-page removal hook
exactly when a style element handle is present; the returned boolean
records whether the hook was invoked. -/
def removeIgnoreStyles (ignoreStyles : Option (List String)) : Bool :=
  ignoreStyles.isSome

/-- Browser oracle for `takeScreenshot`: outcomes of each remote call it
can make (viewport screenshot, element screenshot, the in-page rect
measurement, and the composite-capture subroutine), any of which may
fail. -/
structure CaptureBrowser (Img : Type) where
  viewportShot : Except JsError Img
  elementShot : String → Except JsError Img
  rectsFor : String → Except JsError (Option (ElementRect × ElementRect))
  compositeShot : ElementRect → ElementRect → Except JsError Img

/-- Error message thrown by `takeScreenshot` when the capture selector
matches no element. -/
def notFoundMessage (captureElement : String) : String :=
  "Couldn't find element with selector: '" ++ captureElement ++ "'"

/-- Body of the `try` block of `takeScreenshot`: no capture selector (or
a falsy empty one) takes a full-viewport screenshot; otherwise the
element and window rects are measured, a missing element raises the
not-found error, an element fitting the viewport takes the direct element
screenshot, and anything else goes through composite capture. -/
def takeScreenshotInner {Img : Type} (b : CaptureBrowser Img)
    (captureElement : Option String) : Except JsError Img :=
  match captureElement with
  | none => b.viewportShot
  | some sel =>
    if sel = "" then b.viewportShot
    else
      match b.rectsFor sel with
      | .error e => .error e
      | .ok none => .error (mkJsError (notFoundMessage sel))
      | .ok (some (elementRect, windowRect)) =>
        if elementRect.width + elementRect.left ≤ windowRect.width ∧
            elementRect.height + elementRect.top ≤ windowRect.height then
          b.elementShot sel
        else
          b.compositeShot windowRect elementRect

/-- Observable outcome of one `takeScreenshot` call: the returned (or
thrown) value and whether the in-page ignore-style hooks were invoked. -/
structure ScreenshotOutcome (Img : Type) where
  result : Except JsError Img
  insertHookCalled : Bool
  removeHookCalled : Bool

/-- The `takeScreenshot` function: insert ignore styles, run the capture
body, and — via `try/finally` — always run `removeIgnoreStyles` on the
obtained handle regardless of how the body exited. -/
def takeScreenshot {Img : Type} (b : CaptureBrowser Img)
    (captureElement : Option String) (ignoreElements : IgnoreInput) : ScreenshotOutcome Img :=
  let ins := insertIgnoreStyles ignoreElements
  { result := takeScreenshotInner b captureElement
    insertHookCalled := ins.insertHookCalled
    removeHookCalled := removeIgnoreStyles ins.ignoreStyles }

/-- Modelled from the spec: the direct single-shot element capture path
(`browser.findElement(By.css(selector)).takeScreenshot()`), against which
`takeScreenshot` is compared when the element fits the viewport. -/
def directElementShot {Img : Type} (b : CaptureBrowser Img) (sel : String) :
    Except JsError Img :=
  b.elementShot sel

/-- C4. For every element that fits entirely within the current viewport,
`takeScreenshot` takes the direct single-shot element screenshot and
returns it unchanged: its output is exactly the direct path's output, so
no compositing path is taken and no compositing artifacts can be
introduced. -/
theorem takeScreenshot_fit_direct {Img : Type} (b : CaptureBrowser Img) (sel : String)
    (ign : IgnoreInput) (er wr : ElementRect) (hsel : sel ≠ "")
    (hrects : b.rectsFor sel = .ok (some (er, wr)))
    (hfitw : er.width + er.left ≤ wr.width) (hfith : er.height + er.top ≤ wr.height) :
    (takeScreenshot b (some sel) ign).result = directElementShot b sel := by
  simp [takeScreenshot, takeScreenshotInner, directElementShot, hsel, hrects, hfitw, hfith]

/-- Sample capture selector used by concrete witnesses. -/
def sampleSelector : String :=
  "#root > *"

/-- Concrete element rect used by the direct-path witness: 100×50 at (5, 5). -/
def witElementRect : ElementRect :=
  { top := 5, left := 5, width := 100, height := 50 }

/-- Concrete window rect used by the direct-path witness: 800×600 viewport. -/
def witWindowRect : ElementRect :=
  { top := 0, left := 0, width := 800, height := 600 }

/-- Concrete browser oracle over `ℕ`-tagged images whose rect measurement
always finds `witElementRect` inside `witWindowRect`. -/
def witCaptureBrowser : CaptureBrowser ℕ :=
  { viewportShot := .ok 1
    elementShot := fun _ => .ok 2
    rectsFor := fun _ => .ok (some (witElementRect, witWindowRect))
    compositeShot := fun _ _ => .ok 3 }

/-- C4 (witness): the concrete browser oracle `witCaptureBrowser` with a
100×50 element at (5, 5) in an 800×600 viewport satisfies the hypotheses
of `takeScreenshot_fit_direct`, and its conclusion holds there. -/
theorem takeScreenshot_fit_direct_witness :
    sampleSelector ≠ "" ∧
    witCaptureBrowser.rectsFor sampleSelector = .ok (some (witElementRect, witWindowRect)) ∧
    witElementRect.width + witElementRect.left ≤ witWindowRect.width ∧
    witElementRect.height + witElementRect.top ≤ witWindowRect.height ∧
    (takeScreenshot witCaptureBrowser (some sampleSelector) IgnoreInput.undef).result =
      directElementShot witCaptureBrowser sampleSelector := by
  have h1 : sampleSelector ≠ "" := by simp [sampleSelector]
  have h2 : witCaptureBrowser.rectsFor sampleSelector =
      .ok (some (witElementRect, witWindowRect)) := rfl
  have h3 : witElementRect.width + witElementRect.left ≤ witWindowRect.width := by
    norm_num [witElementRect, witWindowRect]
  have h4 : witElementRect.height + witElementRect.top ≤ witWindowRect.height := by
    norm_num [witElementRect, witWindowRect]
  exact ⟨h1, h2, h3, h4,
    takeScreenshot_fit_direct witCaptureBrowser sampleSelector IgnoreInput.undef
      witElementRect witWindowRect h1 h2 h3 h4⟩

/-- C5. If the capture selector matches no element, `takeScreenshot`
fails with the not-found error whose message names the selector (the
selector text occurs verbatim inside the message); and on every exit
path — with any capture target and any outcome — the in-page
ignore-style removal hook is invoked exactly when the insert hook was,
so an inserted ignore-style element is always removed afterwards. -/
theorem takeScreenshot_notFound_and_cleanup {Img : Type} (b : CaptureBrowser Img)
    (sel : String) (ce : Option String) (ign : IgnoreInput) (hsel : sel ≠ "")
    (hnone : b.rectsFor sel = .ok none) :
    (takeScreenshot b (some sel) ign).result = .error (mkJsError (notFoundMessage sel)) ∧
    sel.toList <:+: (notFoundMessage sel).toList ∧
    (takeScreenshot b ce ign).removeHookCalled = (takeScreenshot b ce ign).insertHookCalled := by
  refine ⟨?_, ?_, ?_⟩
  · simp [takeScreenshot, takeScreenshotInner, hsel, hnone]
  · refine ⟨("Couldn't find element with selector: '").toList, ("'").toList, ?_⟩
    simp [notFoundMessage]
  · by_cases h : (ignoreSelectors ign).isEmpty <;>
      simp [takeScreenshot, removeIgnoreStyles, insertIgnoreStyles, h]

/-- Sample visual-suppression selector used by concrete witnesses. -/
def sampleIgnore : String :=
  ".tooltip"

/-- Concrete browser oracle over `ℕ`-tagged images whose rect measurement
never finds an element. -/
def witNotFoundBrowser : CaptureBrowser ℕ :=
  { viewportShot := .ok 1
    elementShot := fun _ => .ok 2
    rectsFor := fun _ => .ok none
    compositeShot := fun _ _ => .ok 3 }

/-- C5 (witness): with the concrete browser oracle that finds no element
and one effective ignore selector, the hypotheses of
`takeScreenshot_notFound_and_cleanup` hold, and so does its conclusion. -/
theorem takeScreenshot_notFound_and_cleanup_witness :
    sampleSelector ≠ "" ∧ witNotFoundBrowser.rectsFor sampleSelector = .ok none ∧
    ((takeScreenshot witNotFoundBrowser (some sampleSelector) (IgnoreInput.one sampleIgnore)).result =
        .error (mkJsError (notFoundMessage sampleSelector)) ∧
      sampleSelector.toList <:+: (notFoundMessage sampleSelector).toList ∧
      (takeScreenshot witNotFoundBrowser (some sampleSelector)
            (IgnoreInput.one sampleIgnore)).removeHookCalled =
        (takeScreenshot witNotFoundBrowser (some sampleSelector)
            (IgnoreInput.one sampleIgnore)).insertHookCalled) := by
  have h1 : sampleSelector ≠ "" := by simp [sampleSelector]
  have h2 : witNotFoundBrowser.rectsFor sampleSelector = .ok none := rfl
  exact ⟨h1, h2,
    takeScreenshot_notFound_and_cleanup witNotFoundBrowser sampleSelector
      (some sampleSelector) (IgnoreInput.one sampleIgnore) h1 h2⟩

/-- C10. When the `ignoreElements` argument — a selector string, an array
of selectors, `null` or `undefined` — leaves no selectors after the
falsy-entry filtering, `insertIgnoreStyles` returns `null` without
injecting a style element, the removal step performs no in-page call, and
a whole `takeScreenshot` run never invokes either in-page ignore-style
hook. -/
theorem insertIgnoreStyles_empty_noop {Img : Type} (b : CaptureBrowser Img)
    (ce : Option String) (i : IgnoreInput) (h : ignoreSelectors i = []) :
    insertIgnoreStyles i = { ignoreStyles := none, insertHookCalled := false } ∧
    removeIgnoreStyles (insertIgnoreStyles i).ignoreStyles = false ∧
    (takeScreenshot b ce i).insertHookCalled = false ∧
    (takeScreenshot b ce i).removeHookCalled = false := by
  have hemp : (ignoreSelectors i).isEmpty = true := by simp [h]
  refine ⟨?_, ?_, ?_, ?_⟩ <;>
    simp [insertIgnoreStyles, removeIgnoreStyles, takeScreenshot, hemp]

/-- C10 (witness): an array consisting only of empty-string entries
filters down to no selectors, and `insertIgnoreStyles_empty_noop` applies
to it with the concrete browser oracle. -/
theorem insertIgnoreStyles_empty_noop_witness :
    ignoreSelectors (IgnoreInput.many ["", ""]) = [] ∧
    (insertIgnoreStyles (IgnoreInput.many ["", ""]) =
        { ignoreStyles := none, insertHookCalled := false } ∧
      removeIgnoreStyles (insertIgnoreStyles (IgnoreInput.many ["", ""])).ignoreStyles = false ∧
      (takeScreenshot witCaptureBrowser none (IgnoreInput.many ["", ""])).insertHookCalled = false ∧
      (takeScreenshot witCaptureBrowser none (IgnoreInput.many ["", ""])).removeHookCalled = false) := by
  have h : ignoreSelectors (IgnoreInput.many ["", ""]) = [] := by
    simp [ignoreSelectors, ignoreConcat]
  exact ⟨h, insertIgnoreStyles_empty_noop witCaptureBrowser none (IgnoreInput.many ["", ""]) h⟩

/-- Selector capturing the single child of the root container. -/
def captureChildSelector : String :=
  "#root > *"

/-- Selector capturing the whole root container. -/
def captureRootSelector : String :=
  "#root"

/-- The in-page measurement of `resolveCaptureElement`:
`root ? root.childElementCount : 0` — a missing root container counts as
zero children.  `root` is `none` when `document.getElementById` finds no
root element, otherwise the root's child count. -/
def rootChildCount (root : Option ℕ) : ℕ :=
  root.getD 0

/-- The `resolveCaptureElement` helper: zero children yields no capture
override, exactly one child yields the child selector, more than one
yields the root selector. -/
def resolveCaptureElement (root : Option ℕ) : Option String :=
  let childrenCount := rootChildCount root
  if childrenCount = 0 then none
  else if childrenCount = 1 then some captureChildSelector
  else some captureRootSelector

/-- Capture-element resolution of `switchStory`: the destructuring
default `const { captureElement = await resolveCaptureElement(...) }`
uses the story's pinned parameter when present and falls back to
`resolveCaptureElement` (run after story selection) otherwise. -/
def switchStoryCaptureElement (pinned : Option (Option String)) (root : Option ℕ) :
    Option String :=
  match pinned with
  | some v => v
  | none => resolveCaptureElement root

/-- C8. When no explicit capture selector is pinned for a test, the
capture target resolved by `switchStory` is determined by the root
container's child count after story selection: zero children give no
capture override (full-viewport screenshot), exactly one child gives the
selector capturing that child directly, and more than one child gives
the selector capturing the whole root container — and those selectors
are the literal strings of the claim. -/
theorem switchStory_capture_resolution (root : Option ℕ) :
    switchStoryCaptureElement none root =
      (if rootChildCount root = 0 then none
       else if rootChildCount root = 1 then some captureChildSelector
       else some captureRootSelector) ∧
    captureChildSelector = "#root > *" ∧ captureRootSelector = "#root" := by
  exact ⟨rfl, rfl, rfl⟩

/-- Error message reported by the in-page script of `selectStory` when
the story-selection hook is absent from the page. -/
def selectStoryHookMissingMessage : String :=
  "Creevey can't switch story. This may happened if forget to add `creevey` addon to your storybook config, or storybook not loaded in browser due syntax error."

/-- Page oracle for `selectStory`: whether the in-page story-selection
hook exists and, when it runs, the error message it passes to the
callback (if any). -/
structure StoryPage where
  hookPresent : Bool
  hookRun : String → String → String → Bool → Option String

/-- Observable outcome of one `selectStory` call: the result, the number
of `executeAsyncScript` invocations made, and the number of in-page hook
invocations made. -/
structure SelectStoryOutcome where
  result : Except JsError Unit
  scriptCalls : ℕ
  hookCalls : ℕ

/-- The `selectStory` function: a single `executeAsyncScript` call whose
body reports the configuration error immediately when the in-page hook
is absent (never invoking it), and otherwise delegates to the hook once;
a returned error message is rethrown as an `Error`. -/
def selectStory (page : StoryPage) (id kind name : String) (waitForReady : Bool) :
    SelectStoryOutcome :=
  let scripted :=
    if page.hookPresent then (page.hookRun id kind name waitForReady, 1)
    else (some selectStoryHookMissingMessage, 0)
  { result :=
      match scripted.1 with
      | some msg => if msg = "" then .ok () else .error (mkJsError msg)
      | none => .ok ()
    scriptCalls := 1
    hookCalls := scripted.2 }

/-- C9. If the in-page story-selection hook is absent, `selectStory`
fails immediately with the descriptive configuration error: exactly one
in-page script call is made, the hook is never invoked (so no retries
happen inside the story switcher), and the result is the configuration
error. -/
theorem selectStory_hook_absent (page : StoryPage) (id kind name : String)
    (waitForReady : Bool) (h : page.hookPresent = false) :
    (selectStory page id kind name waitForReady).result =
      .error (mkJsError selectStoryHookMissingMessage) ∧
    (selectStory page id kind name waitForReady).scriptCalls = 1 ∧
    (selectStory page id kind name waitForReady).hookCalls = 0 := by
  have hne : selectStoryHookMissingMessage ≠ "" := by decide
  refine ⟨?_, rfl, ?_⟩ <;> simp [selectStory, h, hne]

/-- Concrete page oracle without the story-selection hook. -/
def witStoryPage : StoryPage :=
  { hookPresent := false, hookRun := fun _ _ _ _ => none }

/-- Concrete story identifiers used by the `selectStory` witness. -/
def sampleStoryId : String :=
  "button--primary"

/-- Concrete story kind used by the `selectStory` witness. -/
def sampleStoryKind : String :=
  "Button"

/-- Concrete story name used by the `selectStory` witness. -/
def sampleStoryName : String :=
  "Primary"

/-- C9 (witness): the hookless concrete page satisfies the hypothesis of
`selectStory_hook_absent`, and its conclusion holds there. -/
theorem selectStory_hook_absent_witness :
    witStoryPage.hookPresent = false ∧
    ((selectStory witStoryPage sampleStoryId sampleStoryKind sampleStoryName false).result =
        .error (mkJsError selectStoryHookMissingMessage) ∧
      (selectStory witStoryPage sampleStoryId sampleStoryKind sampleStoryName false).scriptCalls = 1 ∧
      (selectStory witStoryPage sampleStoryId sampleStoryKind sampleStoryName false).hookCalls = 0) := by
  have h : witStoryPage.hookPresent = false := rfl
  exact ⟨h, selectStory_hook_absent witStoryPage sampleStoryId sampleStoryKind
    sampleStoryName false h⟩

/-- Name carried by the URL-resolution failure error. -/
def resolveUrlErrorName : String :=
  "ResolveUrlError"

/-- Message prefix of the wrapped launch failure thrown by `getBrowser`. -/
def cantLoadMessagePrefix : String :=
  "Can't load storybook root page by URL "

/-- Observable outcome of `getBrowser`: the returned value (a browser
handle, or `null` when a shutdown-time failure was swallowed) or the
thrown error, plus whether the failure path attempted to close the
session (`browser.quit()`). -/
structure GetBrowserOutcome where
  result : Except JsError (Option Unit)
  quitAttempted : Bool

/-- The failure handling of `getBrowser`: a successful launch sequence
returns the browser; a failure while the shutdown flag is set attempts a
session close and resolves with `null`; a `ResolveUrlError` is rethrown
unchanged; any other failure is rethrown wrapped in a plain error whose
message names the last known URL (the browser's current URL when
available, otherwise the configured address), keeping the original
stack. -/
def getBrowser (shuttingDown : Bool) (launch : Except JsError Unit)
    (currentUrl : Option String) (realAddress : String) : GetBrowserOutcome :=
  match launch with
  | .ok _ => { result := .ok (some ()), quitAttempted := false }
  | .error e =>
    if shuttingDown then { result := .ok none, quitAttempted := true }
    else if e.name = resolveUrlErrorName then { result := .error e, quitAttempted := false }
    else
      { result := .error
          { name := plainErrorName
            message := cantLoadMessagePrefix ++ currentUrl.getD realAddress
            stack := e.stack }
        quitAttempted := false }

/-- C7. Failure semantics of `getBrowser`: while not shutting down, a
launch failure that is not a `ResolveUrlError` is rethrown wrapped with
the last known URL for diagnosis; a `ResolveUrlError` is propagated
unchanged; and a failure while the shutdown flag is set is swallowed — a
session close is attempted and `null` is returned instead of raising. -/
theorem getBrowser_failure_semantics (e : JsError) (currentUrl : Option String)
    (realAddress : String) (hname : e.name ≠ resolveUrlErrorName) :
    (getBrowser false (.error e) currentUrl realAddress).result =
      .error { name := plainErrorName
               message := cantLoadMessagePrefix ++ currentUrl.getD realAddress
               stack := e.stack } ∧
    (∀ e2 : JsError, e2.name = resolveUrlErrorName →
      getBrowser false (.error e2) currentUrl realAddress =
        { result := .error e2, quitAttempted := false }) ∧
    (∀ e3 : JsError, getBrowser true (.error e3) currentUrl realAddress =
      { result := .ok none, quitAttempted := true }) := by
  refine ⟨?_, ?_, ?_⟩
  · simp [getBrowser, hname]
  · intro e2 h2
    simp [getBrowser, h2]
  · intro e3
    simp [getBrowser]

/-- Concrete launch failure used by the `getBrowser` witness. -/
def witLaunchError : JsError :=
  { name := "WebDriverError", message := "ECONNREFUSED", stack := "at Builder.build" }

/-- Concrete current URL used by the `getBrowser` witness. -/
def witCurrentUrl : String :=
  "http://172.17.0.1:6006/iframe.html"

/-- Concrete configured address used by the `getBrowser` witness. -/
def witRealAddress : String :=
  "http://localhost:6006"

/-- C7 (witness): the concrete non-resolution launch failure satisfies
the hypothesis of `getBrowser_failure_semantics`, and its conclusion
holds at the concrete URLs. -/
theorem getBrowser_failure_semantics_witness :
    witLaunchError.name ≠ resolveUrlErrorName ∧
    ((getBrowser false (.error witLaunchError) (some witCurrentUrl) witRealAddress).result =
        .error { name := plainErrorName
                 message := cantLoadMessagePrefix ++ (some witCurrentUrl).getD witRealAddress
                 stack := witLaunchError.stack } ∧
      (∀ e2 : JsError, e2.name = resolveUrlErrorName →
        getBrowser false (.error e2) (some witCurrentUrl) witRealAddress =
          { result := .error e2, quitAttempted := false }) ∧
      (∀ e3 : JsError, getBrowser true (.error e3) (some witCurrentUrl) witRealAddress =
        { result := .ok none, quitAttempted := true })) := by
  have h : witLaunchError.name ≠ resolveUrlErrorName := by
    simp [witLaunchError, resolveUrlErrorName]
  exact ⟨h, getBrowser_failure_semantics witLaunchError (some witCurrentUrl) witRealAddress h⟩

/-- Boolean infix test on lists, modelling JavaScript `String.includes`
when applied to the character lists of strings. -/
def listInfixOf {α : Type} [BEq α] : List α → List α → Bool
  | pat, [] => pat.isEmpty
  | pat, b :: l => pat.isPrefixOf (b :: l) || listInfixOf pat l

/-- JavaScript `source.includes(pat)`. -/
def containsStr (s pat : String) : Bool :=
  listInfixOf pat.toList s.toList

/-- The Docker-internal host alias `DOCKER_INTERNAL`, tried first by
`resolveStorybookUrl`. -/
def dockerInternal : String :=
  "host.docker.internal"

/-- The root-container marker whose presence in the page source tells the
checker that the storybook application rendered. -/
def rootDivMarker : String :=
  "<div id=\"root\"></div>"

/-- One entry of `os.networkInterfaces()`: its address family and
address. -/
structure NetInfo where
  family : String
  address : String

/-- The IPv4 address-family tag. -/
def ipv4Family : String :=
  "IPv4"

/-- The candidate address list built by `resolveStorybookUrl`:
`[DOCKER_INTERNAL].concat(...)` — the Docker alias first, then every
IPv4 address of every defined network interface, in enumeration order. -/
def candidateAddresses (interfaces : List (Option (List NetInfo))) : List String :=
  dockerInternal ::
    ((interfaces.filterMap id).map fun network =>
      (network.filter fun info => info.family == ipv4Family).map fun info => info.address).flatten

/-- Message of the URL-resolution failure. -/
def resolveUrlErrorMessage : String :=
  "Please specify `storybookUrl` with IP address that accessible from remote browser"

/-- The error thrown by `resolveStorybookUrl` when every candidate fails:
a plain error whose `name` is reassigned to `ResolveUrlError`. -/
def resolveUrlError : JsError :=
  { name := resolveUrlErrorName, message := resolveUrlErrorMessage, stack := "" }

/-- The candidate loop of `resolveStorybookUrl`: try each address in
order, returning the first rewritten URL accepted by `checkUrl`, and
throw `resolveUrlError` when the list is exhausted.  `subst ip` models
`storybookUrl.replace(LOCALHOST_REGEXP, ip)` (the regexp lives in the
utils module outside the given sources and is kept abstract). -/
def resolveLoop (subst : String → String) (checkUrl : String → Bool) :
    List String → Except JsError String
  | [] => .error resolveUrlError
  | ip :: rest =>
    if checkUrl (subst ip) then .ok (subst ip) else resolveLoop subst checkUrl rest

/-- The `resolveStorybookUrl` function as the candidate loop over
`candidateAddresses`. -/
def resolveStorybookUrl (subst : String → String) (checkUrl : String → Bool)
    (interfaces : List (Option (List NetInfo))) : Except JsError String :=
  resolveLoop subst checkUrl (candidateAddresses interfaces)

/-- The polling loop of `openUrlAndWaitForPageSource` over the stream of
page sources observed after loading a URL: run the body (a
`getPageSource` returning `none` models a thrown exception, which the
loop catches, keeping the previous source) and repeat while the
predicate holds.  Explicit fuel stands in for elapsed real time of the
unbounded `do/while`; exhausted fuel (`none`) models a poll that never
settles. -/
def pollPageSource (get : ℕ → Option String) (pred : String → Bool) :
    ℕ → ℕ → String → Option String
  | 0, _, _ => none
  | fuel + 1, step, prev =>
    let source := (get step).getD prev
    if pred source then pollPageSource get pred fuel (step + 1) source else some source

/-- The `about:blank` reset URL. -/
def aboutBlank : String :=
  "about:blank"

/-- The empty-body marker awaited on `about:blank`. -/
def blankBodyMarker : String :=
  "<body></body>"

/-- Browser oracle for `getUrlChecker`: whether navigating to a URL
throws, the page-source stream observed while polling after each load,
the in-page body-completeness test (modelled from the spec: it abstracts
the inline `<body…>…</body>` regular expression of the checker), and the
fuel bounding both polling loops. -/
structure UrlCheckBrowser where
  getThrows : String → Bool
  sources : String → ℕ → Option String
  bodyLoaded : String → Bool
  fuel : ℕ

/-- The predicate polled on the candidate URL: keep polling while the
source is empty or its body has not fully loaded. -/
def candidatePred (b : UrlCheckBrowser) (s : String) : Bool :=
  s.length == 0 || !b.bodyLoaded s

/-- The checker produced by `getUrlChecker`: reset by loading
`about:blank` and polling until its empty body appears, load the
candidate URL and poll until a fully-loaded body is seen, then report
whether the page source contains the root container; any thrown
navigation error (and, in this bounded model, a poll that never settles)
makes the candidate fail. -/
def getUrlChecker (b : UrlCheckBrowser) (url : String) : Bool :=
  if b.getThrows aboutBlank then false
  else
    match pollPageSource (b.sources aboutBlank)
        (fun s => !containsStr s blankBodyMarker) b.fuel 0 "" with
    | none => false
    | some _ =>
      if b.getThrows url then false
      else
        match pollPageSource (b.sources url) (candidatePred b) b.fuel 0 "" with
        | none => false
        | some source => containsStr source rootDivMarker

/-- The candidate loop returns the first accepted candidate (in list
order) and the resolution error otherwise. -/
theorem resolveLoop_eq_find (subst : String → String) (checkUrl : String → Bool)
    (l : List String) :
    resolveLoop subst checkUrl l =
      match l.find? (fun ip => checkUrl (subst ip)) with
      | some ip => .ok (subst ip)
      | none => .error resolveUrlError := by
  induction l with
  | nil => rfl
  | cons ip rest ih =>
    by_cases h : checkUrl (subst ip) = true
    · simp [resolveLoop, h, List.find?]
    · rw [List.find?]
      simp only [h]
      rw [resolveLoop, if_neg (by simpa using h)]
      exact ih

/-- C6. URL resolution for a loopback storybook URL with no resolver
callback: the candidates are the Docker-internal alias followed by the
local IPv4 interface addresses in enumeration order; the resolver
returns the rewritten URL of the first candidate accepted by the
checker — which loads `about:blank`, then the candidate URL, polls the
page source, and accepts exactly when the settled source contains the
root container — and fails with the error named `ResolveUrlError` when
every candidate is rejected. -/
theorem resolveStorybookUrl_spec (subst : String → String) (b : UrlCheckBrowser)
    (interfaces : List (Option (List NetInfo))) :
    candidateAddresses interfaces =
      dockerInternal ::
        ((interfaces.filterMap id).map fun network =>
          (network.filter fun info => info.family == ipv4Family).map
            fun info => info.address).flatten ∧
    (match (candidateAddresses interfaces).find?
        (fun ip => getUrlChecker b (subst ip)) with
      | some ip =>
        resolveStorybookUrl subst (getUrlChecker b) interfaces = .ok (subst ip)
      | none =>
        resolveStorybookUrl subst (getUrlChecker b) interfaces = .error resolveUrlError) ∧
    resolveUrlError.name = resolveUrlErrorName ∧
    (∀ url, getUrlChecker b url = true →
      ∃ source,
        pollPageSource (b.sources url) (candidatePred b) b.fuel 0 "" = some source ∧
        containsStr source rootDivMarker = true) := by
  refine ⟨rfl, ?_, rfl, ?_⟩
  · have h := resolveLoop_eq_find subst (getUrlChecker b) (candidateAddresses interfaces)
    cases hfind : (candidateAddresses interfaces).find?
        (fun ip => getUrlChecker b (subst ip)) with
    | none => rw [hfind] at h; exact h
    | some ip => rw [hfind] at h; exact h
  · intro url hurl
    unfold getUrlChecker at hurl
    by_cases h1 : b.getThrows aboutBlank = true
    · simp [h1] at hurl
    · rw [if_neg (by simpa using h1)] at hurl
      cases hblank : pollPageSource (b.sources aboutBlank)
          (fun s => !containsStr s blankBodyMarker) b.fuel 0 "" with
      | none => rw [hblank] at hurl; simp at hurl
      | some blankSource =>
        rw [hblank] at hurl
        by_cases h2 : b.getThrows url = true
        · simp [h2] at hurl
        · rw [if_neg (by simpa using h2)] at hurl
          cases hpoll : pollPageSource (b.sources url) (candidatePred b) b.fuel 0 "" with
          | none => rw [hpoll] at hurl; simp at hurl
          | some source =>
            rw [hpoll] at hurl
            exact ⟨source, rfl, hurl⟩

/-- URL rewriting used by the resolution witness: the loopback host of
`http://localhost:6006/iframe.html` replaced by a candidate address. -/
def witSubst (ip : String) : String :=
  "http://" ++ ip ++ ":6006/iframe.html"

/-- First local IPv4 interface address of the resolution scenario. -/
def witIp1 : String :=
  "172.17.0.1"

/-- Second local IPv4 interface address of the resolution scenario. -/
def witIp2 : String :=
  "192.168.1.5"

/-- The network interfaces of the resolution scenario: two interfaces
with one IPv4 address each. -/
def witInterfaces : List (Option (List NetInfo)) :=
  [some [{ family := ipv4Family, address := witIp1 }],
    some [{ family := ipv4Family, address := witIp2 }]]

/-- Page source that renders the root container. -/
def witPageWithRoot : String :=
  "<html><head></head><body><div id=\"root\"></div></body></html>"

/-- Page source that does not render the root container. -/
def witPageNoRoot : String :=
  "<html><head></head><body>cannot reach</body></html>"

/-- Browser oracle of the resolution scenario: loads never throw, the
blank page settles immediately, the first IPv4 candidate renders the
root container, and every other candidate (the Docker alias included)
does not. -/
def witResolveBrowser : UrlCheckBrowser :=
  { getThrows := fun _ => false
    sources := fun url _ =>
      if url = aboutBlank then some blankBodyMarker
      else if url = witSubst witIp1 then some witPageWithRoot
      else some witPageNoRoot
    bodyLoaded := fun _ => true
    fuel := 1 }

/-- C6 (witness): in the concrete scenario — loopback URL, interfaces
`[172.17.0.1, 192.168.1.5]`, Docker alias failing the readiness check —
the resolver tries the alias first and returns the URL rewritten with
`172.17.0.1`, the first candidate rendering the root container; and
`resolveStorybookUrl_spec` holds at this input. -/
theorem resolveStorybookUrl_spec_witness :
    (candidateAddresses witInterfaces = [dockerInternal, witIp1, witIp2] ∧
      getUrlChecker witResolveBrowser (witSubst dockerInternal) = false ∧
      getUrlChecker witResolveBrowser (witSubst witIp1) = true ∧
      resolveStorybookUrl witSubst (getUrlChecker witResolveBrowser) witInterfaces =
        .ok (witSubst witIp1)) ∧
    (candidateAddresses witInterfaces =
      dockerInternal ::
        ((witInterfaces.filterMap id).map fun network =>
          (network.filter fun info => info.family == ipv4Family).map
            fun info => info.address).flatten ∧
    (match (candidateAddresses witInterfaces).find?
        (fun ip => getUrlChecker witResolveBrowser (witSubst ip)) with
      | some ip =>
        resolveStorybookUrl witSubst (getUrlChecker witResolveBrowser) witInterfaces =
          .ok (witSubst ip)
      | none =>
        resolveStorybookUrl witSubst (getUrlChecker witResolveBrowser) witInterfaces =
          .error resolveUrlError) ∧
    resolveUrlError.name = resolveUrlErrorName ∧
    (∀ url, getUrlChecker witResolveBrowser url = true →
      ∃ source,
        pollPageSource (witResolveBrowser.sources url) (candidatePred witResolveBrowser)
            witResolveBrowser.fuel 0 "" = some source ∧
        containsStr source rootDivMarker = true)) := by
  refine ⟨⟨rfl, ?_, ?_, ?_⟩, resolveStorybookUrl_spec witSubst witResolveBrowser witInterfaces⟩
  · rfl
  · rfl
  · rfl

end Creevey
